import Mathlib

/-!
Verification of the pub/sub reconciliation service
(src/services/pubsub_creator.py, src/models/pubsub_models.py).

The Python service is shallowly embedded: every operation becomes a pure
Lean function of an explicit service state (which client handles were
initialized), a backend oracle (the remote pub/sub service, modelled as
response functions), and the typed request.  Each operation returns the
Python result: `Except.ok` carries the response object the method returns,
`Except.error` models an exception escaping the method, and the second
component is the ordered list of backend calls the method issued.
Python dictionaries are modelled as association lists; `None`-able values
as `Option`; the digit class of the duration regex by the Unicode Nd
digit-run table that Python's `re` and `int` consult.
-/

/- ===== DurationCodec: _parse_duration (src/services/pubsub_creator.py:394-402) ===== -/

/-- First codepoint of every run of ten consecutive decimal digits in the
Unicode character class Nd (Unicode 14.0, the database CPython ships):
the ASCII digits, the Arabic-Indic, Devanagari, fullwidth, mathematical
digits and so on.  Each run holds the digits zero through nine in order,
so a digit's decimal value is its offset in its run. -/
def ndRunStarts : List Nat :=
  [0x30, 0x660, 0x6F0, 0x7C0, 0x966, 0x9E6, 0xA66, 0xAE6,
   0xB66, 0xBE6, 0xC66, 0xCE6, 0xD66, 0xDE6, 0xE50, 0xED0,
   0xF20, 0x1040, 0x1090, 0x17E0, 0x1810, 0x1946, 0x19D0, 0x1A80,
   0x1A90, 0x1B50, 0x1BB0, 0x1C40, 0x1C50, 0xA620, 0xA8D0, 0xA900,
   0xA9D0, 0xA9F0, 0xAA50, 0xABF0, 0xFF10, 0x104A0, 0x10D30, 0x11066,
   0x110F0, 0x11136, 0x111D0, 0x112F0, 0x11450, 0x114D0, 0x11650, 0x116C0,
   0x11730, 0x118E0, 0x11950, 0x11C50, 0x11D50, 0x11DA0, 0x16A60, 0x16AC0,
   0x16B50, 0x1D7CE, 0x1D7D8, 0x1D7E2, 0x1D7EC, 0x1D7F6, 0x1E140, 0x1E2F0,
   0x1E950, 0x1FBF0]

/-- Unicode decimal digit, modelling the regex class backslash-d of the
duration regex in `_parse_duration`.  The pattern is a str pattern, so
backslash-d matches every Nd character, not only the ASCII digits. -/
def isDig (c : Char) : Bool :=
  ndRunStarts.any (fun a => decide (a ≤ c.toNat) && decide (c.toNat ≤ a + 9))

/-- Decimal value of one Unicode digit: its offset in its digit run. -/
def digVal (c : Char) : Nat :=
  match ndRunStarts.find? (fun a => decide (a ≤ c.toNat) && decide (c.toNat ≤ a + 9)) with
  | some a => c.toNat - a
  | none => 0

/-- Decimal value of a digit string, modelling Python `int(value)`, which
accepts any Unicode decimal digits and reads them base ten. -/
def digitsVal (ds : List Char) : Nat :=
  ds.foldl (fun a c => a * 10 + digVal c) 0

/-- Longest digit prefix of a character list together with the remainder,
modelling how the anchored greedy group `(\d+)` consumes input. -/
def takeDigits : List Char → List Char × List Char
  | [] => ([], [])
  | c :: cs =>
    if isDig c then (c :: (takeDigits cs).1, (takeDigits cs).2)
    else ([], c :: cs)

/-- Unit group `(s|m|h)` of the duration regex. -/
def isUnit (c : Char) : Bool := (c == 's') || (c == 'm') || (c == 'h')

/-- Seconds multiplier table of `_parse_duration`:
`{"s": 1, "m": 60, "h": 3600}`. -/
def unitMult (c : Char) : Nat :=
  if c = 's' then 1 else if c = 'm' then 60 else if c = 'h' then 3600 else 0

/-- Python `re.match` of the pattern `^(\d+)(s|m|h)$` against a character
list.  In Python's regex dialect the dollar anchor matches at the end of
the string and also just before one final newline, so the accepted tails
after the unit are the empty tail and a single final newline. -/
def pyDurationMatch (l : List Char) : Option (List Char × Char) :=
  if (takeDigits l).1 = [] then none
  else
    match (takeDigits l).2 with
    | [u] => if isUnit u then some ((takeDigits l).1, u) else none
    | [u, c] => if isUnit u && (c == '\n') then some ((takeDigits l).1, u) else none
    | _ => none

/-- `_parse_duration` (src/services/pubsub_creator.py:394-402): the
`seconds` field of the returned protobuf Duration, `none` when the regex
does not match.  The code never sets nanos, so a Duration is its seconds. -/
def _parse_duration (s : String) : Option Nat :=
  match pyDurationMatch s.data with
  | none => none
  | some p => some (digitsVal p.1 * unitMult p.2)

/-- SubscriptionConfig (src/models/pubsub_models.py:26-32). -/
structure SubscriptionConfig where
  name : String
  push_endpoint : Option String := none
  ack_deadline_seconds : Option Int := none
  retain_acked_messages : Option Bool := none
  message_retention_duration : Option String := none
  labels : Option (List (String × String)) := none
  deriving DecidableEq, Repr

/-- TopicCreate (src/models/pubsub_models.py:11-14). -/
structure TopicCreate where
  project_id : String
  topic_name : String
  labels : Option (List (String × String)) := none
  deriving DecidableEq, Repr

/-- TopicDelete (src/models/pubsub_models.py:17-19). -/
structure TopicDelete where
  topic_name : String
  delete_subscriptions : Option (List String) := none
  deriving DecidableEq, Repr

/-- SubscriptionDelete (src/models/pubsub_models.py:22-23). -/
structure SubscriptionDelete where
  subscription_name : String
  deriving DecidableEq, Repr

/-- TopicUpdate (src/models/pubsub_models.py:35-40). -/
structure TopicUpdate where
  topic_name : String
  labels : Option (List (String × String)) := none
  message_retention_duration : Option String := none
  add_subscription : Option SubscriptionConfig := none
  update_subscription : Option SubscriptionConfig := none
  deriving DecidableEq, Repr

/-- Python truthiness of an Optional[str]: `None` and the empty string are
falsy, any other string is truthy. -/
def truthyStr : Option String → Bool
  | none => false
  | some s => !(s == "")

/-- Python truthiness of an Optional[dict]: `None` and the empty dict are
falsy, a nonempty dict is truthy. -/
def truthyMap : Option (List (String × String)) → Bool
  | none => false
  | some l => !l.isEmpty

/- ===== Backend collaborator (google-cloud-pubsub client) ===== -/

/-- A Python exception escaping a backend call: the backend's NotFound, an
AttributeError from touching a `None` client handle, or any other failure
carrying its message. -/
inductive PyExn where
  | notFound
  | attrError
  | generic (msg : String)
  deriving DecidableEq, Repr

/-- Python `str(e)` for a modelled exception. -/
def exnMsg : PyExn → String
  | .notFound => "404 Not found"
  | .attrError => "AttributeError: NoneType has no attribute"
  | .generic m => m

/-- Topic resource as reported by the backend (the fields
`get_pubsub_topic` and `list_pubsub_topics` read off the proto). -/
structure TopicInfo where
  name : String
  labels : List (String × String) := []
  retention_seconds : Int := 0
  kms_key_name : String := ""
  allowed_persistence_regions : List String := []
  schema_settings : Option (String × String) := none
  satisfies_pzs : Bool := false
  deriving DecidableEq, Repr

/-- Subscription resource as reported by the backend. -/
structure SubInfo where
  name : String
  topic : String := ""
  push_endpoint : String := ""
  ack_deadline_seconds : Int := 0
  retain_acked_messages : Bool := false
  retention_seconds : Int := 0
  labels : List (String × String) := []
  deriving DecidableEq, Repr

/-- The `subscription_settings` dict built by `_add_subscription`
(src/services/pubsub_creator.py:412-434): a key is present exactly when
the code adds it.  The retention key, when present, holds the result of
`_parse_duration`, which the code stores without checking (it can be the
Python `None`, hence the nested Option). -/
structure SubSettings where
  name : String
  topic : String
  ack_deadline_seconds : Option Int := none
  retain_acked_messages : Option Bool := none
  message_retention_duration : Option (Option Nat) := none
  labels : Option (List (String × String)) := none
  push_endpoint : Option String := none
  deriving DecidableEq, Repr

/-- The Subscription proto built by `_update_subscription`
(src/services/pubsub_creator.py:332-364); unset proto fields keep their
proto3 defaults. -/
structure SubMsg where
  name : String
  ack_deadline_seconds : Int := 0
  retain_acked_messages : Bool := false
  retention_seconds : Nat := 0
  labels : List (String × String) := []
  push_endpoint : Option String := none
  deriving DecidableEq, Repr

/-- The Topic proto built by `update_pubsub_topic`
(src/services/pubsub_creator.py:266-277). -/
structure TopicMsg where
  name : String
  labels : List (String × String) := []
  retention_seconds : Nat := 0
  deriving DecidableEq, Repr

/-- One backend call as issued by the service, in issue order. -/
inductive Call where
  | getTopic (path : String)
  | createTopic (path : String) (labels : List (String × String))
  | updateTopic (msg : TopicMsg) (mask : List String)
  | deleteTopic (path : String)
  | listTopics (project : String)
  | listTopicSubscriptions (topic : String)
  | getSubscription (path : String)
  | createSubscription (settings : SubSettings)
  | updateSubscription (msg : SubMsg) (mask : List String)
  | deleteSubscription (path : String)
  deriving DecidableEq, Repr

/-- The remote pub/sub service, modelled as a response oracle per client
method (spec section 6); `Except.error` is the call raising. -/
structure Backend where
  getTopic : String → Except PyExn TopicInfo
  createTopic : String → List (String × String) → Except PyExn String
  updateTopic : TopicMsg → List String → Except PyExn String
  deleteTopic : String → Except PyExn Unit
  listTopics : String → Except PyExn (List TopicInfo)
  listTopicSubscriptions : String → Except PyExn (List String)
  getSubscription : String → Except PyExn SubInfo
  createSubscription : SubSettings → Except PyExn SubInfo
  updateSubscription : SubMsg → List String → Except PyExn SubInfo
  deleteSubscription : String → Except PyExn Unit

/- ===== Service state and response models ===== -/

/-- PubSubCreatorService state after `__init__`
(src/services/pubsub_creator.py:13-28): whether each client handle was
set, and the stored project id (`None` when initialization failed). -/
structure PubSubCreatorService where
  publisher : Bool
  subscriber : Bool
  project_id : Option String
  deriving DecidableEq, Repr

/-- Python string interpolation of a possibly-None project id. -/
def projStr : Option String → String
  | some p => p
  | none => "None"

/-- `publisher.topic_path(project, name)`. -/
def topic_path_of (proj name : String) : String :=
  "projects/" ++ proj ++ "/topics/" ++ name

/-- `subscriber.subscription_path(project, name)`. -/
def subscription_path_of (proj name : String) : String :=
  "projects/" ++ proj ++ "/subscriptions/" ++ name

/-- TopicCreateResponse (src/models/pubsub_models.py:66-67). -/
structure TopicCreateResponse where
  status : String
  message : String
  topic_path : String
  deriving DecidableEq, Repr

/-- SubscriptionDeleteResult (src/models/pubsub_models.py:69-72). -/
structure SubscriptionDeleteResult where
  name : String
  status : String
  message : String
  deriving DecidableEq, Repr

/-- TopicDeleteResponse (src/models/pubsub_models.py:74-75). -/
structure TopicDeleteResponse where
  status : String
  message : String
  deleted_subscriptions : Option (List SubscriptionDeleteResult) := none
  deriving DecidableEq, Repr

/-- PubSubBaseResponse (src/models/pubsub_models.py:62-64). -/
structure PubSubBaseResponse where
  status : String
  message : String
  deriving DecidableEq, Repr

/-- The subscription dict shaped by `_add_subscription` and
`_update_subscription` success paths. -/
structure SubView where
  name : String
  topic : String
  push_config : Option String
  ack_deadline_seconds : Int
  retain_acked_messages : Bool
  message_retention_duration : String
  labels : List (String × String)
  deriving DecidableEq, Repr

/-- PubSubResponse as used by the subscription helpers
(src/models/pubsub_models.py:90-101, only the fields those helpers set). -/
structure PubSubResponse where
  status : String
  message : String
  subscription : Option SubView := none
  deriving DecidableEq, Repr

/-- TopicUpdateResponse (src/models/pubsub_models.py:83-88); the
`added_subscription` and `updated_subscription` fields hold the delegated
helper's whole response dict. -/
structure TopicUpdateResponse where
  status : String
  message : String
  topic_path : String
  added_subscription : Option PubSubResponse := none
  updated_subscription : Option PubSubResponse := none
  add_subscription_error : Option String := none
  update_subscription_error : Option String := none
  deriving DecidableEq, Repr

/-- Subscription list-view model (src/models/pubsub_models.py:42-48). -/
structure Subscription where
  name : String
  full_name : String
  push_config : Option String
  ack_deadline_seconds : Int
  message_retention_duration : String
  labels : List (String × String)
  deriving DecidableEq, Repr

/-- TopicDetail (src/models/pubsub_models.py:113-121); the storage policy
dict is represented by its single `allowed_persistence_regions` entry. -/
structure TopicDetail where
  name : String
  labels : List (String × String)
  allowed_persistence_regions : List String
  kms_key_name : String
  schema_settings : Option (String × String)
  satisfies_pzs : Bool
  message_retention_duration : Int
  subscriptions : List Subscription
  deriving DecidableEq, Repr

/-- TopicList (src/models/pubsub_models.py:124-127). -/
structure TopicListEntry where
  name : String
  labels : List (String × String)
  subscriptions : List Subscription
  deriving DecidableEq, Repr

/-- PubSubListResponse (src/models/pubsub_models.py:130-133). -/
structure PubSubListResponse where
  status : String
  topics : Option (List TopicListEntry) := none
  message : Option String := none
  deriving DecidableEq, Repr

/-- PubSubTopicResponse (src/models/pubsub_models.py:136-139). -/
structure PubSubTopicResponse where
  status : String
  topic : Option TopicDetail := none
  message : Option String := none
  deriving DecidableEq, Repr

/- ===== Service operations (src/services/pubsub_creator.py) ===== -/

/-- `create_pubsub_topic` (src/services/pubsub_creator.py:30-53).  The
method has no initialization guard: `self.publisher.topic_path` raises an
AttributeError when the publisher handle is `None` (the `@retry.Retry()`
wrapper retries only transient service errors, so it passes such an
exception through).  When the handle exists, the whole call body is under
a catch-all `except`, so it always returns an envelope.  Note the request
uses its own `project_id`, not the service's. -/
def create_pubsub_topic (svc : PubSubCreatorService) (B : Backend)
    (tc : TopicCreate) : Except PyExn TopicCreateResponse × List Call :=
  if svc.publisher = false then (.error .attrError, [])
  else
    let tp := topic_path_of tc.project_id tc.topic_name
    match B.createTopic tp (tc.labels.getD []) with
    | .ok nm =>
      (.ok ⟨"success", "Topic created: " ++ nm, nm⟩, [.createTopic tp (tc.labels.getD [])])
    | .error e =>
      (.ok ⟨"error", "Failed to create topic: " ++ exnMsg e, ""⟩,
       [.createTopic tp (tc.labels.getD [])])

/-- One iteration of the cascade-deletion loop of `delete_pubsub_topic`
(src/services/pubsub_creator.py:75-105): delete one named subscription,
mapping NotFound and any other failure to per-subscription outcomes. -/
def subDeleteStep (B : Backend) (proj n : String) : SubscriptionDeleteResult :=
  match B.deleteSubscription (subscription_path_of proj n) with
  | .ok _ => ⟨n, "success", "Subscription deleted: " ++ n⟩
  | .error .notFound => ⟨n, "error", "Subscription not found: " ++ n⟩
  | .error e => ⟨n, "error", "Failed to delete subscription: " ++ exnMsg e⟩

/-- `delete_pubsub_topic` (src/services/pubsub_creator.py:55-125).  The
existence pre-check catches only NotFound, so any other failure of
`get_topic` escapes the method as an exception. -/
def delete_pubsub_topic (svc : PubSubCreatorService) (B : Backend)
    (td : TopicDelete) : Except PyExn TopicDeleteResponse × List Call :=
  if svc.publisher = false ∨ svc.subscriber = false then
    (.ok ⟨"error", "PubSub service not initialized", none⟩, [])
  else
    let proj := projStr svc.project_id
    let tp := topic_path_of proj td.topic_name
    match B.getTopic tp with
    | .error .notFound =>
      (.ok ⟨"error", "Topic not found: " ++ tp, none⟩, [.getTopic tp])
    | .error e => (.error e, [.getTopic tp])
    | .ok _ =>
      let ns := td.delete_subscriptions.getD []
      let dels := ns.map (subDeleteStep B proj)
      let subCalls := ns.map (fun n => Call.deleteSubscription (subscription_path_of proj n))
      match B.deleteTopic tp with
      | .ok _ =>
        (.ok ⟨"success", "Topic deleted: " ++ tp,
              if dels.isEmpty then none else some dels⟩,
         Call.getTopic tp :: subCalls ++ [Call.deleteTopic tp])
      | .error e =>
        (.ok ⟨"error", "Failed to delete topic: " ++ exnMsg e,
              if dels.isEmpty then none else some dels⟩,
         Call.getTopic tp :: subCalls ++ [Call.deleteTopic tp])

/-- `delete_pubsub_subscription` (src/services/pubsub_creator.py:127-153).
Guards only the subscriber handle; the whole call is under try/except. -/
def delete_pubsub_subscription (svc : PubSubCreatorService) (B : Backend)
    (sd : SubscriptionDelete) : Except PyExn PubSubBaseResponse × List Call :=
  if svc.subscriber = false then
    (.ok ⟨"error", "PubSub service not initialized"⟩, [])
  else
    let sp := subscription_path_of (projStr svc.project_id) sd.subscription_name
    match B.deleteSubscription sp with
    | .ok _ => (.ok ⟨"success", "Subscription deleted: " ++ sp⟩, [.deleteSubscription sp])
    | .error .notFound =>
      (.ok ⟨"error", "Subscription not found: " ++ sp⟩, [.deleteSubscription sp])
    | .error e =>
      (.ok ⟨"error", "Failed to delete subscription: " ++ exnMsg e⟩, [.deleteSubscription sp])

/-- Subscription list view built per attached subscription
(src/services/pubsub_creator.py:232-247); a push config is shown when the
endpoint string is nonempty. -/
def subViewOf (s : SubInfo) : Subscription :=
  ⟨s.name, s.name, (if s.push_endpoint = "" then none else some s.push_endpoint),
   s.ack_deadline_seconds, toString s.retention_seconds, s.labels⟩

/-- The resolution loop inside `_list_topic_subscriptions`
(src/services/pubsub_creator.py:228-247): resolve each subscription path
to its detail; the first failing `get_subscription` aborts the loop with
its exception. -/
def collectSubs (B : Backend) : List String → Except PyExn (List Subscription) × List Call
  | [] => (.ok [], [])
  | p :: ps =>
    match B.getSubscription p with
    | .error e => (.error e, [.getSubscription p])
    | .ok s =>
      ((collectSubs B ps).1.map (fun l => subViewOf s :: l),
       Call.getSubscription p :: (collectSubs B ps).2)

/-- `_list_topic_subscriptions` (src/services/pubsub_creator.py:222-254):
any failure, of the listing call or of any per-subscription resolution,
is swallowed by the catch-all and an empty list is returned. -/
def _list_topic_subscriptions (B : Backend) (topic_name : String) :
    List Subscription × List Call :=
  match B.listTopicSubscriptions topic_name with
  | .error _ => ([], [.listTopicSubscriptions topic_name])
  | .ok ps =>
    match collectSubs B ps with
    | (.error _, cs) => ([], Call.listTopicSubscriptions topic_name :: cs)
    | (.ok subs, cs) => (subs, Call.listTopicSubscriptions topic_name :: cs)

/-- `get_pubsub_topic` (src/services/pubsub_creator.py:183-220). -/
def get_pubsub_topic (svc : PubSubCreatorService) (B : Backend)
    (topic_name : String) : Except PyExn PubSubTopicResponse × List Call :=
  if svc.publisher = false ∨ svc.subscriber = false then
    (.ok ⟨"error", none, some "PubSub service not initialized"⟩, [])
  else
    let tp := topic_path_of (projStr svc.project_id) topic_name
    match B.getTopic tp with
    | .error e =>
      (.ok ⟨"error", none, some ("Failed to get topic: " ++ exnMsg e)⟩, [.getTopic tp])
    | .ok t =>
      (.ok ⟨"success",
            some ⟨t.name, t.labels, t.allowed_persistence_regions, t.kms_key_name,
                  t.schema_settings, t.satisfies_pzs, t.retention_seconds,
                  (_list_topic_subscriptions B t.name).1⟩,
            none⟩,
       Call.getTopic tp :: (_list_topic_subscriptions B t.name).2)

/-- `list_pubsub_topics` (src/services/pubsub_creator.py:155-181). -/
def list_pubsub_topics (svc : PubSubCreatorService) (B : Backend) :
    Except PyExn PubSubListResponse × List Call :=
  if svc.publisher = false ∨ svc.subscriber = false then
    (.ok ⟨"error", none, some "PubSub service not initialized"⟩, [])
  else
    let pp := "projects/" ++ projStr svc.project_id
    match B.listTopics pp with
    | .error e =>
      (.ok ⟨"error", none, some ("Failed to list topics: " ++ exnMsg e)⟩, [.listTopics pp])
    | .ok ts =>
      (.ok ⟨"success",
            some (ts.map (fun t =>
              ⟨t.name, t.labels, (_list_topic_subscriptions B t.name).1⟩)),
            none⟩,
       Call.listTopics pp ::
         ts.foldr (fun t acc => (_list_topic_subscriptions B t.name).2 ++ acc) [])

/-- Field mask built by `_update_subscription`
(src/services/pubsub_creator.py:336-364), in the code's append order.
Presence tests follow the code exactly: `is not None` for the ack deadline
and the retain flag, Python truthiness for the retention string, the label
dict and the push endpoint; an unparsable retention string adds nothing. -/
def subUpdateMask (cfg : SubscriptionConfig) : List String :=
  (if cfg.ack_deadline_seconds.isSome then ["ack_deadline_seconds"] else []) ++
  (if cfg.retain_acked_messages.isSome then ["retain_acked_messages"] else []) ++
  (if truthyStr cfg.message_retention_duration then
    (if (_parse_duration (cfg.message_retention_duration.getD "")).isSome then
      ["message_retention_duration"] else [])
   else []) ++
  (if truthyMap cfg.labels then ["labels"] else []) ++
  (if truthyStr cfg.push_endpoint then ["push_config"] else [])

/-- Subscription proto assembled by `_update_subscription` along the mask. -/
def subUpdateMsg (sp : String) (cfg : SubscriptionConfig) : SubMsg :=
  { name := sp
    ack_deadline_seconds := cfg.ack_deadline_seconds.getD 0
    retain_acked_messages := cfg.retain_acked_messages.getD false
    retention_seconds :=
      if truthyStr cfg.message_retention_duration then
        (_parse_duration (cfg.message_retention_duration.getD "")).getD 0
      else 0
    labels := if truthyMap cfg.labels then cfg.labels.getD [] else []
    push_endpoint := if truthyStr cfg.push_endpoint then cfg.push_endpoint else none }

/-- Subscription dict shaped on the success paths of `_add_subscription`
and `_update_subscription` (src/services/pubsub_creator.py:373-387 and
443-457). -/
def updatedSubView (s : SubInfo) : SubView :=
  ⟨s.name, s.topic, (if s.push_endpoint = "" then none else some s.push_endpoint),
   s.ack_deadline_seconds, s.retain_acked_messages, toString s.retention_seconds, s.labels⟩

/-- `_update_subscription` (src/services/pubsub_creator.py:324-392).  The
mutation call is always issued (even with an empty mask, and even when a
present retention string failed to parse); the catch-all turns any raise
into an error envelope. -/
def _update_subscription (svc : PubSubCreatorService) (B : Backend)
    (_topic_path : String) (cfg : SubscriptionConfig) : PubSubResponse × List Call :=
  let sp := subscription_path_of (projStr svc.project_id) cfg.name
  match B.updateSubscription (subUpdateMsg sp cfg) (subUpdateMask cfg) with
  | .ok s =>
    (⟨"success", "Subscription updated: " ++ s.name, some (updatedSubView s)⟩,
     [.updateSubscription (subUpdateMsg sp cfg) (subUpdateMask cfg)])
  | .error e =>
    (⟨"error", "Failed to update subscription: " ++ exnMsg e, none⟩,
     [.updateSubscription (subUpdateMsg sp cfg) (subUpdateMask cfg)])

/-- The `subscription_settings` dict assembled by `_add_subscription`
(src/services/pubsub_creator.py:412-434): a key appears exactly when the
code's presence test passes; no omitted key is given a value. -/
def addSubSettings (sp tp : String) (cfg : SubscriptionConfig) : SubSettings :=
  { name := sp
    topic := tp
    ack_deadline_seconds := cfg.ack_deadline_seconds
    retain_acked_messages := cfg.retain_acked_messages
    message_retention_duration :=
      if truthyStr cfg.message_retention_duration then
        some (_parse_duration (cfg.message_retention_duration.getD ""))
      else none
    labels := if truthyMap cfg.labels then cfg.labels else none
    push_endpoint := if truthyStr cfg.push_endpoint then cfg.push_endpoint else none }

/-- `_add_subscription` (src/services/pubsub_creator.py:404-462). -/
def _add_subscription (svc : PubSubCreatorService) (B : Backend)
    (topic_path : String) (cfg : SubscriptionConfig) : PubSubResponse × List Call :=
  let sp := subscription_path_of (projStr svc.project_id) cfg.name
  match B.createSubscription (addSubSettings sp topic_path cfg) with
  | .ok s =>
    (⟨"success", "Subscription added: " ++ s.name, some (updatedSubView s)⟩,
     [.createSubscription (addSubSettings sp topic_path cfg)])
  | .error e =>
    (⟨"error", "Failed to add subscription: " ++ exnMsg e, none⟩,
     [.createSubscription (addSubSettings sp topic_path cfg)])

/-- Field mask built by `update_pubsub_topic`
(src/services/pubsub_creator.py:269-277), in the code's append order:
labels when present (`is not None`, so an explicitly empty dict counts),
then the retention field when present and parsed. -/
def topicUpdateMask (tu : TopicUpdate) : List String :=
  (if tu.labels.isSome then ["labels"] else []) ++
  (match tu.message_retention_duration with
   | some s => if (_parse_duration s).isSome then ["message_retention_duration"] else []
   | none => [])

/-- Topic proto assembled by `update_pubsub_topic` along the mask. -/
def topicUpdateMsg (tp : String) (tu : TopicUpdate) : TopicMsg :=
  { name := tp
    labels := tu.labels.getD []
    retention_seconds :=
      match tu.message_retention_duration with
      | some s => (_parse_duration s).getD 0
      | none => 0 }

/-- Tail of `update_pubsub_topic` (src/services/pubsub_creator.py:297-315):
attach the delegated add-subscription and update-subscription outcomes to
the already-built topic-level result `r0`; a helper failure fills the
corresponding named error field and never touches the top-level status. -/
def attachSubResults (svc : PubSubCreatorService) (B : Backend) (tp : String)
    (tu : TopicUpdate) (r0 : TopicUpdateResponse) (c0 : List Call) :
    Except PyExn TopicUpdateResponse × List Call :=
  let (r1, c1) :=
    match tu.add_subscription with
    | none => (r0, c0)
    | some cfg =>
      if (_add_subscription svc B tp cfg).1.status = "success" then
        ({ r0 with added_subscription := some (_add_subscription svc B tp cfg).1 },
         c0 ++ (_add_subscription svc B tp cfg).2)
      else
        ({ r0 with add_subscription_error := some (_add_subscription svc B tp cfg).1.message },
         c0 ++ (_add_subscription svc B tp cfg).2)
  match tu.update_subscription with
  | none => (.ok r1, c1)
  | some cfg =>
    if (_update_subscription svc B tp cfg).1.status = "success" then
      (.ok { r1 with updated_subscription := some (_update_subscription svc B tp cfg).1 },
       c1 ++ (_update_subscription svc B tp cfg).2)
    else
      (.ok { r1 with update_subscription_error := some (_update_subscription svc B tp cfg).1.message },
       c1 ++ (_update_subscription svc B tp cfg).2)

/-- `update_pubsub_topic` (src/services/pubsub_creator.py:256-322).  A
present retention string that fails to parse returns the invalid-format
error before any backend call; an empty mask skips the mutation and keeps
the no-op success message; the delegated subscription helpers never raise,
and their failures land in the named error fields without touching the
top-level status. -/
def update_pubsub_topic (svc : PubSubCreatorService) (B : Backend)
    (tu : TopicUpdate) : Except PyExn TopicUpdateResponse × List Call :=
  if svc.publisher = false ∨ svc.subscriber = false then
    (.ok ⟨"error", "PubSub service not initialized", "", none, none, none, none⟩, [])
  else
    let tp := topic_path_of (projStr svc.project_id) tu.topic_name
    if tu.message_retention_duration.isSome &&
        (_parse_duration (tu.message_retention_duration.getD "")).isNone then
      (.ok ⟨"error", "Invalid message_retention_duration format", tp,
            none, none, none, none⟩, [])
    else
      let step1 : Except PyExn (TopicUpdateResponse × List Call) :=
        if topicUpdateMask tu = [] then
          .ok (⟨"success", "No updates were necessary for the topic", tp,
                none, none, none, none⟩, [])
        else
          match B.updateTopic (topicUpdateMsg tp tu) (topicUpdateMask tu) with
          | .ok nm =>
            .ok (⟨"success", "Topic updated: " ++ nm, tp, none, none, none, none⟩,
                 [.updateTopic (topicUpdateMsg tp tu) (topicUpdateMask tu)])
          | .error e => .error e
      match step1 with
      | .error e =>
        (.ok ⟨"error", "Failed to update topic: " ++ exnMsg e, tp,
              none, none, none, none⟩,
         [.updateTopic (topicUpdateMsg tp tu) (topicUpdateMask tu)])
      | .ok (r0, c0) => attachSubResults svc B tp tu r0 c0

/- ===== Shared fixtures and helper lemmas ===== -/

/-- A fully initialized service over project p1. -/
def svcInit : PubSubCreatorService := ⟨true, true, some "p1"⟩

/-- The service state after a failed `__init__`: both handles are `None`
(src/services/pubsub_creator.py:23-28). -/
def svcNoInit : PubSubCreatorService := ⟨false, false, none⟩

/-- A backend on which every call raises an opaque failure. -/
def failingBackend : Backend :=
  ⟨fun _ => .error (.generic "boom"), fun _ _ => .error (.generic "boom"),
   fun _ _ => .error (.generic "boom"), fun _ => .error (.generic "boom"),
   fun _ => .error (.generic "boom"), fun _ => .error (.generic "boom"),
   fun _ => .error (.generic "boom"), fun _ => .error (.generic "boom"),
   fun _ _ => .error (.generic "boom"), fun _ => .error (.generic "boom")⟩

/-- Whether a backend call is the topic mutation call of a topic update. -/
def isTopicMutation : Call → Bool
  | .updateTopic _ _ => true
  | _ => false

theorem add_subscription_trace (svc : PubSubCreatorService) (B : Backend)
    (tp : String) (cfg : SubscriptionConfig) :
    (_add_subscription svc B tp cfg).2 =
      [Call.createSubscription
        (addSubSettings (subscription_path_of (projStr svc.project_id) cfg.name) tp cfg)] := by
  unfold _add_subscription
  rcases h : B.createSubscription
      (addSubSettings (subscription_path_of (projStr svc.project_id) cfg.name) tp cfg) with
    e | s <;> simp [h]

theorem update_subscription_trace (svc : PubSubCreatorService) (B : Backend)
    (tp : String) (cfg : SubscriptionConfig) :
    (_update_subscription svc B tp cfg).2 =
      [Call.updateSubscription
        (subUpdateMsg (subscription_path_of (projStr svc.project_id) cfg.name) cfg)
        (subUpdateMask cfg)] := by
  unfold _update_subscription
  rcases h : B.updateSubscription
      (subUpdateMsg (subscription_path_of (projStr svc.project_id) cfg.name) cfg)
      (subUpdateMask cfg) with
    e | s <;> simp [h]

/-- The final response produced by the attachment stage. -/
def attachResult (svc : PubSubCreatorService) (B : Backend) (tp : String)
    (tu : TopicUpdate) (r0 : TopicUpdateResponse) : TopicUpdateResponse :=
  let r1 :=
    match tu.add_subscription with
    | none => r0
    | some cfg =>
      if (_add_subscription svc B tp cfg).1.status = "success" then
        { r0 with added_subscription := some (_add_subscription svc B tp cfg).1 }
      else
        { r0 with add_subscription_error := some (_add_subscription svc B tp cfg).1.message }
  match tu.update_subscription with
  | none => r1
  | some cfg =>
    if (_update_subscription svc B tp cfg).1.status = "success" then
      { r1 with updated_subscription := some (_update_subscription svc B tp cfg).1 }
    else
      { r1 with update_subscription_error := some (_update_subscription svc B tp cfg).1.message }

/-- Backend calls issued by the delegated add-subscription step. -/
def addCalls (svc : PubSubCreatorService) (B : Backend) (tp : String)
    (tu : TopicUpdate) : List Call :=
  match tu.add_subscription with
  | none => []
  | some cfg => (_add_subscription svc B tp cfg).2

/-- Backend calls issued by the delegated update-subscription step. -/
def updCalls (svc : PubSubCreatorService) (B : Backend) (tp : String)
    (tu : TopicUpdate) : List Call :=
  match tu.update_subscription with
  | none => []
  | some cfg => (_update_subscription svc B tp cfg).2

theorem attachSubResults_eq (svc : PubSubCreatorService) (B : Backend)
    (tp : String) (tu : TopicUpdate) (r0 : TopicUpdateResponse) (c0 : List Call) :
    attachSubResults svc B tp tu r0 c0 =
      (.ok (attachResult svc B tp tu r0),
       c0 ++ addCalls svc B tp tu ++ updCalls svc B tp tu) := by
  unfold attachSubResults attachResult addCalls updCalls
  rcases ha : tu.add_subscription with _ | cfga <;>
    rcases hb : tu.update_subscription with _ | cfgb
  · simp [ha, hb]
  · by_cases hsb : (_update_subscription svc B tp cfgb).1.status = "success" <;>
      simp [ha, hb, hsb]
  · by_cases hsa : (_add_subscription svc B tp cfga).1.status = "success" <;>
      simp [ha, hb, hsa]
  · by_cases hsa : (_add_subscription svc B tp cfga).1.status = "success" <;>
      by_cases hsb : (_update_subscription svc B tp cfgb).1.status = "success" <;>
      simp [ha, hb, hsa, hsb]

theorem attachResult_top (svc : PubSubCreatorService) (B : Backend) (tp : String)
    (tu : TopicUpdate) (r0 : TopicUpdateResponse) :
    (attachResult svc B tp tu r0).status = r0.status ∧
    (attachResult svc B tp tu r0).message = r0.message ∧
    (attachResult svc B tp tu r0).topic_path = r0.topic_path := by
  unfold attachResult
  rcases ha : tu.add_subscription with _ | cfga <;>
    rcases hb : tu.update_subscription with _ | cfgb
  · simp [ha, hb]
  · by_cases hsb : (_update_subscription svc B tp cfgb).1.status = "success" <;>
      simp [ha, hb, hsb]
  · by_cases hsa : (_add_subscription svc B tp cfga).1.status = "success" <;>
      simp [ha, hb, hsa]
  · by_cases hsa : (_add_subscription svc B tp cfga).1.status = "success" <;>
      by_cases hsb : (_update_subscription svc B tp cfgb).1.status = "success" <;>
      simp [ha, hb, hsa, hsb]

theorem addCalls_no_topic_mutation (svc : PubSubCreatorService) (B : Backend)
    (tp : String) (tu : TopicUpdate) :
    (addCalls svc B tp tu).all (fun c => !isTopicMutation c) = true := by
  unfold addCalls
  rcases h : tu.add_subscription with _ | cfg
  · simp
  · simp only []
    rw [add_subscription_trace]
    simp [isTopicMutation]

theorem updCalls_no_topic_mutation (svc : PubSubCreatorService) (B : Backend)
    (tp : String) (tu : TopicUpdate) :
    (updCalls svc B tp tu).all (fun c => !isTopicMutation c) = true := by
  unfold updCalls
  rcases h : tu.update_subscription with _ | cfg
  · simp
  · simp only []
    rw [update_subscription_trace]
    simp [isTopicMutation]

/- ===== C3 ===== -/

/-- C3: a topic update whose retention string fails duration parsing is
rejected locally: the result is the error envelope whose message starts
with "Invalid", and the list of issued backend calls is empty. -/
theorem topic_update_invalid_duration_fails_fast
    (svc : PubSubCreatorService) (B : Backend) (tu : TopicUpdate) (s : String)
    (hp : svc.publisher = true) (hs : svc.subscriber = true)
    (hm : tu.message_retention_duration = some s)
    (hbad : _parse_duration s = none) :
    update_pubsub_topic svc B tu =
      (.ok ⟨"error", "Invalid message_retention_duration format",
            topic_path_of (projStr svc.project_id) tu.topic_name,
            none, none, none, none⟩, []) ∧
    "Invalid".data.isPrefixOf "Invalid message_retention_duration format".data = true := by
  refine ⟨?_, by decide⟩
  have hcond : (tu.message_retention_duration.isSome &&
      (_parse_duration (tu.message_retention_duration.getD "")).isNone) = true := by
    simp [hm, hbad]
  simp [update_pubsub_topic, hp, hs, hcond]

/-- Topic update request carrying the malformed duration "10x". -/
def tuBadRetention : TopicUpdate :=
  { topic_name := "orders", message_retention_duration := some "10x" }

theorem topic_update_invalid_duration_fails_fast_witness :
    svcInit.publisher = true ∧ svcInit.subscriber = true ∧
    tuBadRetention.message_retention_duration = some "10x" ∧
    _parse_duration "10x" = none ∧
    (update_pubsub_topic svcInit failingBackend tuBadRetention =
      (.ok ⟨"error", "Invalid message_retention_duration format",
            topic_path_of (projStr svcInit.project_id) tuBadRetention.topic_name,
            none, none, none, none⟩, []) ∧
     "Invalid".data.isPrefixOf "Invalid message_retention_duration format".data = true) :=
  ⟨rfl, rfl, rfl, by decide,
   topic_update_invalid_duration_fails_fast svcInit failingBackend tuBadRetention "10x"
     rfl rfl rfl (by decide)⟩

/- ===== C5 ===== -/

/-- C5: a topic update carrying no topic-level attribute (no labels, no
retention) has an empty diff set, issues no topic mutation call, and still
reports success with the distinct no-op message. -/
theorem topic_update_empty_diff_noop
    (svc : PubSubCreatorService) (B : Backend) (tu : TopicUpdate)
    (hp : svc.publisher = true) (hs : svc.subscriber = true)
    (hl : tu.labels = none) (hr : tu.message_retention_duration = none) :
    topicUpdateMask tu = [] ∧
    ∃ r calls, update_pubsub_topic svc B tu = (.ok r, calls) ∧
      r.status = "success" ∧
      r.message = "No updates were necessary for the topic" ∧
      calls.all (fun c => !isTopicMutation c) = true := by
  have hmask : topicUpdateMask tu = [] := by simp [topicUpdateMask, hl, hr]
  have hred : update_pubsub_topic svc B tu =
      attachSubResults svc B (topic_path_of (projStr svc.project_id) tu.topic_name) tu
        ⟨"success", "No updates were necessary for the topic",
         topic_path_of (projStr svc.project_id) tu.topic_name, none, none, none, none⟩
        [] := by
    simp [update_pubsub_topic, hp, hs, hr, hmask]
  rw [attachSubResults_eq] at hred
  refine ⟨hmask, _, _, hred, ?_, ?_, ?_⟩
  · rw [(attachResult_top svc B _ tu _).1]
  · rw [(attachResult_top svc B _ tu _).2.1]
  · simp only [List.nil_append, List.all_append, Bool.and_eq_true]
    exact ⟨addCalls_no_topic_mutation svc B _ tu, updCalls_no_topic_mutation svc B _ tu⟩

/-- Topic update request carrying no recognized field at all. -/
def tuNoFields : TopicUpdate := { topic_name := "orders" }

theorem topic_update_empty_diff_noop_witness :
    tuNoFields.labels = none ∧ tuNoFields.message_retention_duration = none ∧
    (topicUpdateMask tuNoFields = [] ∧
     ∃ r calls, update_pubsub_topic svcInit failingBackend tuNoFields = (.ok r, calls) ∧
       r.status = "success" ∧
       r.message = "No updates were necessary for the topic" ∧
       calls.all (fun c => !isTopicMutation c) = true) :=
  ⟨rfl, rfl,
   topic_update_empty_diff_noop svcInit failingBackend tuNoFields rfl rfl rfl rfl⟩

/- ===== C7 ===== -/

/-- C6: when the topic exists and its deletion succeeds, a delete request
naming the subscriptions `ns` yields exactly one outcome per name, in
request order, produced by the per-subscription step; a missing
subscription gives an error not-found outcome; the batch is never aborted
(every named subscription is attempted, and the topic deletion call is
still issued last). -/
theorem topic_delete_cascade_outcomes
    (svc : PubSubCreatorService) (B : Backend) (td : TopicDelete)
    (ns : List String) (t : TopicInfo)
    (hp : svc.publisher = true) (hs : svc.subscriber = true)
    (hns : td.delete_subscriptions = some ns) (hne : ns ≠ [])
    (hex : B.getTopic (topic_path_of (projStr svc.project_id) td.topic_name) = .ok t)
    (hdel : B.deleteTopic (topic_path_of (projStr svc.project_id) td.topic_name) = .ok ()) :
    delete_pubsub_topic svc B td =
      (.ok ⟨"success",
            "Topic deleted: " ++ topic_path_of (projStr svc.project_id) td.topic_name,
            some (ns.map (subDeleteStep B (projStr svc.project_id)))⟩,
       Call.getTopic (topic_path_of (projStr svc.project_id) td.topic_name) ::
         ns.map (fun n =>
           Call.deleteSubscription (subscription_path_of (projStr svc.project_id) n)) ++
         [Call.deleteTopic (topic_path_of (projStr svc.project_id) td.topic_name)]) ∧
    (ns.map (subDeleteStep B (projStr svc.project_id))).length = ns.length ∧
    (∀ n ∈ ns, (subDeleteStep B (projStr svc.project_id) n).name = n) ∧
    (∀ n, B.deleteSubscription (subscription_path_of (projStr svc.project_id) n) =
        .error .notFound →
      (subDeleteStep B (projStr svc.project_id) n).status = "error" ∧
      (subDeleteStep B (projStr svc.project_id) n).message =
        "Subscription not found: " ++ n) ∧
    (∀ n, B.deleteSubscription (subscription_path_of (projStr svc.project_id) n) =
        .ok () →
      (subDeleteStep B (projStr svc.project_id) n).status = "success") := by
  have hidel : (ns.map (subDeleteStep B (projStr svc.project_id))).isEmpty = false := by
    rcases ns with _ | ⟨a, l⟩
    · exact absurd rfl hne
    · rfl
  refine ⟨?_, by simp, ?_, ?_, ?_⟩
  · simp [delete_pubsub_topic, hp, hs, hex, hns, hdel, hidel]
  · intro n _
    unfold subDeleteStep
    rcases h : B.deleteSubscription (subscription_path_of (projStr svc.project_id) n) with
      e | u
    · rcases e with _ | _ | m <;> simp [h]
    · simp [h]
  · intro n h
    simp [subDeleteStep, h]
  · intro n h
    simp [subDeleteStep, h]

/-- A backend on which subscription sub-missing does not exist and every
other delete succeeds. -/
def cascadeBackend : Backend :=
  ⟨fun p => .ok { name := p },
   fun p _ => .ok p,
   fun m _ => .ok m.name,
   fun _ => .ok (),
   fun _ => .ok [],
   fun _ => .ok [],
   fun _ => .error .notFound,
   fun stg => .ok { name := stg.name },
   fun m _ => .ok { name := m.name },
   fun sp => if sp = "projects/p1/subscriptions/sub-missing" then .error .notFound
             else .ok ()⟩

/-- Topic delete request cascading over three subscriptions, one missing. -/
def tdCascade : TopicDelete :=
  { topic_name := "orders",
    delete_subscriptions := some ["sub-a", "sub-b", "sub-missing"] }

theorem topic_delete_cascade_outcomes_witness :
    (["sub-a", "sub-b", "sub-missing"] : List String) ≠ [] ∧
    delete_pubsub_topic svcInit cascadeBackend tdCascade =
      (.ok ⟨"success", "Topic deleted: projects/p1/topics/orders",
            some [⟨"sub-a", "success", "Subscription deleted: sub-a"⟩,
                  ⟨"sub-b", "success", "Subscription deleted: sub-b"⟩,
                  ⟨"sub-missing", "error", "Subscription not found: sub-missing"⟩]⟩,
       [Call.getTopic "projects/p1/topics/orders",
        Call.deleteSubscription "projects/p1/subscriptions/sub-a",
        Call.deleteSubscription "projects/p1/subscriptions/sub-b",
        Call.deleteSubscription "projects/p1/subscriptions/sub-missing",
        Call.deleteTopic "projects/p1/topics/orders"]) :=
  ⟨by decide,
   (topic_delete_cascade_outcomes svcInit cascadeBackend tdCascade
     ["sub-a", "sub-b", "sub-missing"] { name := "projects/p1/topics/orders" }
     rfl rfl rfl (by decide) rfl rfl).1⟩

/- ===== C8 ===== -/

/-- Whether a modelled operation returned normally: `true` when the method
returned a response envelope, `false` when an exception escaped it. -/
def returnsOk {α : Type} : Except PyExn α → Bool
  | .ok _ => true
  | .error _ => false

/-- Topic create request fixture. -/
def tcOrders : TopicCreate := { project_id := "p1", topic_name := "orders" }

/-- C8 (counterexample): on the state where the client handles failed to
initialize, create_pubsub_topic does not return a result envelope — the
attribute access on the missing publisher handle raises, and the exception
escapes the component boundary (the claim requires every operation,
including this one, to return an envelope in that state). -/
theorem create_uninitialized_raises :
    (create_pubsub_topic svcNoInit failingBackend tcOrders).1 =
      .error .attrError := rfl

/-- C8 (amended): every public operation except topic creation returns a
result envelope on every input, with two exceptions in the code: topic
creation has no initialization guard, so it raises on an uninitialized
handle; and topic deletion's existence pre-check catches only NotFound, so
any other failure of that lookup escapes.  In all remaining situations
(initialized creation, lookup succeeding or missing, and the other four
operations on any state and backend) an envelope is returned. -/
theorem operation_totality
    (svc : PubSubCreatorService) (B : Backend) (tc : TopicCreate)
    (td : TopicDelete) (sd : SubscriptionDelete) (tu : TopicUpdate) (tn : String) :
    (svc.publisher = true → returnsOk (create_pubsub_topic svc B tc).1 = true) ∧
    (svc.publisher = false →
      (create_pubsub_topic svc B tc).1 = .error .attrError) ∧
    returnsOk (get_pubsub_topic svc B tn).1 = true ∧
    returnsOk (list_pubsub_topics svc B).1 = true ∧
    returnsOk (update_pubsub_topic svc B tu).1 = true ∧
    returnsOk (delete_pubsub_subscription svc B sd).1 = true ∧
    ((svc.publisher = true → svc.subscriber = true →
      ∀ e, e ≠ PyExn.notFound →
        B.getTopic (topic_path_of (projStr svc.project_id) td.topic_name) = .error e →
        (delete_pubsub_topic svc B td).1 = .error e) ∧
     (∀ t, B.getTopic (topic_path_of (projStr svc.project_id) td.topic_name) = .ok t →
        returnsOk (delete_pubsub_topic svc B td).1 = true) ∧
     (B.getTopic (topic_path_of (projStr svc.project_id) td.topic_name) =
        .error .notFound →
        returnsOk (delete_pubsub_topic svc B td).1 = true) ∧
     (svc.publisher = false ∨ svc.subscriber = false →
        returnsOk (delete_pubsub_topic svc B td).1 = true)) := by
  refine ⟨?_, ?_, ?_, ?_, ?_, ?_, ?_, ?_, ?_, ?_⟩
  · intro h
    rcases hB : B.createTopic (topic_path_of tc.project_id tc.topic_name)
        (tc.labels.getD []) with e | nm <;>
      simp [create_pubsub_topic, h, hB, returnsOk]
  · intro h
    simp [create_pubsub_topic, h]
  · by_cases hp : svc.publisher = false ∨ svc.subscriber = false
    · simp [get_pubsub_topic, hp, returnsOk]
    · rcases hB : B.getTopic (topic_path_of (projStr svc.project_id) tn) with e | t <;>
        simp [get_pubsub_topic, hp, hB, returnsOk]
  · by_cases hp : svc.publisher = false ∨ svc.subscriber = false
    · simp [list_pubsub_topics, hp, returnsOk]
    · rcases hB : B.listTopics ("projects/" ++ projStr svc.project_id) with e | ts <;>
        simp [list_pubsub_topics, hp, hB, returnsOk]
  · by_cases hp : svc.publisher = false ∨ svc.subscriber = false
    · simp [update_pubsub_topic, hp, returnsOk]
    · by_cases hbad : (tu.message_retention_duration.isSome &&
          (_parse_duration (tu.message_retention_duration.getD "")).isNone) = true
      · simp [update_pubsub_topic, hp, hbad, returnsOk]
      · rw [Bool.not_eq_true] at hbad
        by_cases hmask : topicUpdateMask tu = []
        · rw [update_pubsub_topic]
          simp only [hp, hbad, hmask, if_false, if_true, Bool.false_eq_true]
          rw [attachSubResults_eq]
          simp [returnsOk]
        · rcases hB : B.updateTopic
              (topicUpdateMsg (topic_path_of (projStr svc.project_id) tu.topic_name) tu)
              (topicUpdateMask tu) with e | nm
          · simp [update_pubsub_topic, hp, hbad, hmask, hB, returnsOk]
          · rw [update_pubsub_topic]
            simp only [hp, hbad, hmask, if_false, if_true, Bool.false_eq_true, hB]
            rw [attachSubResults_eq]
            simp [returnsOk]
  · by_cases hs2 : svc.subscriber = false
    · simp [delete_pubsub_subscription, hs2, returnsOk]
    · rcases hB : B.deleteSubscription
          (subscription_path_of (projStr svc.project_id) sd.subscription_name) with
        e | u
      · rcases e with _ | _ | m <;>
          simp [delete_pubsub_subscription, hs2, hB, returnsOk]
      · simp [delete_pubsub_subscription, hs2, hB, returnsOk]
  · intro h1 h2 e hene hB
    have hp : ¬(svc.publisher = false ∨ svc.subscriber = false) := by
      simp [h1, h2]
    rcases e with _ | _ | m
    · exact absurd rfl hene
    · simp [delete_pubsub_topic, hp, hB]
    · simp [delete_pubsub_topic, hp, hB]
  · intro t hB
    by_cases hp : svc.publisher = false ∨ svc.subscriber = false
    · simp [delete_pubsub_topic, hp, returnsOk]
    · rcases hD : B.deleteTopic (topic_path_of (projStr svc.project_id) td.topic_name)
          with e | u <;>
        simp [delete_pubsub_topic, hp, hB, hD, returnsOk]
  · intro hB
    by_cases hp : svc.publisher = false ∨ svc.subscriber = false
    · simp [delete_pubsub_topic, hp, returnsOk]
    · simp [delete_pubsub_topic, hp, hB, returnsOk]
  · intro hp
    simp [delete_pubsub_topic, hp, returnsOk]

/-- Subscription delete request fixture. -/
def sdFixture : SubscriptionDelete := { subscription_name := "s" }

theorem operation_totality_witness :
    returnsOk (create_pubsub_topic svcInit failingBackend tcOrders).1 = true ∧
    (create_pubsub_topic svcNoInit failingBackend tcOrders).1 = .error .attrError ∧
    returnsOk (get_pubsub_topic svcInit failingBackend "orders").1 = true ∧
    returnsOk (list_pubsub_topics svcInit failingBackend).1 = true ∧
    returnsOk (update_pubsub_topic svcInit failingBackend tuNoFields).1 = true ∧
    returnsOk (delete_pubsub_subscription svcInit failingBackend sdFixture).1 = true ∧
    (delete_pubsub_topic svcInit failingBackend tdCascade).1 =
      .error (.generic "boom") :=
  ⟨(operation_totality svcInit failingBackend tcOrders tdCascade sdFixture
      tuNoFields "orders").1 rfl,
   (operation_totality svcNoInit failingBackend tcOrders tdCascade sdFixture
      tuNoFields "orders").2.1 rfl,
   (operation_totality svcInit failingBackend tcOrders tdCascade sdFixture
      tuNoFields "orders").2.2.1,
   (operation_totality svcInit failingBackend tcOrders tdCascade sdFixture
      tuNoFields "orders").2.2.2.1,
   (operation_totality svcInit failingBackend tcOrders tdCascade sdFixture
      tuNoFields "orders").2.2.2.2.1,
   (operation_totality svcInit failingBackend tcOrders tdCascade sdFixture
      tuNoFields "orders").2.2.2.2.2.1,
   (operation_totality svcInit failingBackend tcOrders tdCascade sdFixture
      tuNoFields "orders").2.2.2.2.2.2.1 rfl rfl (.generic "boom") (by decide) rfl⟩

/- ===== C9 ===== -/

/-- C10: if listing a topic's attached subscriptions fails, or resolving
any attached subscription's detail fails, the helper returns the empty
list; the enclosing get-topic still reports success with an empty
subscriptions field, and list-topics likewise succeeds, embedding each
topic's helper output — a failure is indistinguishable from a topic with
no subscriptions. -/
theorem subscription_listing_failures_swallowed
    (svc : PubSubCreatorService) (B : Backend) (tn : String) (t : TopicInfo)
    (hp : svc.publisher = true) (hs : svc.subscriber = true)
    (hfail : (∃ e, B.listTopicSubscriptions t.name = .error e) ∨
      (∃ ps e, B.listTopicSubscriptions t.name = .ok ps ∧
        (collectSubs B ps).1 = .error e))
    (hget : B.getTopic (topic_path_of (projStr svc.project_id) tn) = .ok t) :
    (_list_topic_subscriptions B t.name).1 = [] ∧
    (∃ r, get_pubsub_topic svc B tn =
        (.ok r, Call.getTopic (topic_path_of (projStr svc.project_id) tn) ::
                  (_list_topic_subscriptions B t.name).2) ∧
      r.status = "success" ∧
      r.topic = some ⟨t.name, t.labels, t.allowed_persistence_regions,
                      t.kms_key_name, t.schema_settings, t.satisfies_pzs,
                      t.retention_seconds, []⟩) ∧
    (∀ ts, B.listTopics ("projects/" ++ projStr svc.project_id) = .ok ts →
      ∃ r2, (list_pubsub_topics svc B).1 = .ok r2 ∧ r2.status = "success" ∧
        r2.topics = some (ts.map (fun u =>
          ⟨u.name, u.labels, (_list_topic_subscriptions B u.name).1⟩))) := by
  have hnil : (_list_topic_subscriptions B t.name).1 = [] := by
    rcases hfail with ⟨e, he⟩ | ⟨ps, e, hps, hc⟩
    · simp [_list_topic_subscriptions, he]
    · rcases hcs : collectSubs B ps with ⟨r1, cs⟩
      rw [hcs] at hc
      simp only at hc
      subst hc
      simp [_list_topic_subscriptions, hps, hcs]
  have hcond : ¬(svc.publisher = false ∨ svc.subscriber = false) := by
    simp [hp, hs]
  refine ⟨hnil, ?_, ?_⟩
  · refine ⟨⟨"success",
        some ⟨t.name, t.labels, t.allowed_persistence_regions, t.kms_key_name,
              t.schema_settings, t.satisfies_pzs, t.retention_seconds,
              (_list_topic_subscriptions B t.name).1⟩, none⟩, ?_, rfl, ?_⟩
    · simp [get_pubsub_topic, hcond, hget]
    · simp [hnil]
  · intro ts hts
    refine ⟨⟨"success",
        some (ts.map (fun u =>
          ⟨u.name, u.labels, (_list_topic_subscriptions B u.name).1⟩)), none⟩,
      ?_, rfl, rfl⟩
    simp [list_pubsub_topics, hcond, hts]

/-- A backend whose per-topic subscription listing is down while topic
reads succeed. -/
def listFailBackend : Backend :=
  ⟨fun p => .ok { name := p },
   fun p _ => .ok p,
   fun m _ => .ok m.name,
   fun _ => .ok (),
   fun _ => .ok [{ name := "projects/p1/topics/orders" }],
   fun _ => .error (.generic "listing down"),
   fun _ => .error .notFound,
   fun stg => .ok { name := stg.name },
   fun m _ => .ok { name := m.name },
   fun _ => .ok ()⟩

theorem subscription_listing_failures_swallowed_witness :
    (∃ e, listFailBackend.listTopicSubscriptions "projects/p1/topics/orders" =
      .error e) ∧
    (_list_topic_subscriptions listFailBackend "projects/p1/topics/orders").1 = [] ∧
    (get_pubsub_topic svcInit listFailBackend "orders").1 =
      .ok ⟨"success",
           some ⟨"projects/p1/topics/orders", [], [], "", none, false, 0, []⟩,
           none⟩ :=
  ⟨⟨.generic "listing down", rfl⟩,
   (subscription_listing_failures_swallowed svcInit listFailBackend "orders"
     { name := "projects/p1/topics/orders" } rfl rfl
     (Or.inl ⟨.generic "listing down", rfl⟩) rfl).1,
   rfl⟩
